import Mathlib

/-
Shallow embedding of the Prakvedaa CRM backend (FastAPI request handlers in
app/main.py over the SQLAlchemy models in app/models.py).  The database is
modelled as in-memory lists of rows; a raised HTTPException is modelled as an
`Except.error` carrying the status code and detail string; password hashing
and verification are injected as function parameters, since they are opaque
cryptographic primitives.  Each handler definition below transcribes the
corresponding Python handler.
-/

namespace PrakvedaaCRM

/-- An HTTPException raised by a handler: HTTP status code and detail text. -/
structure ApiError where
  code : Nat
  detail : String
  deriving DecidableEq, Repr

/-- Row of the users table (app/models.py, class User).  The created_at
timestamp plays no role in any handler and is omitted. -/
structure User where
  id : Nat
  name : String
  email : String
  password_hash : String
  role : String
  deriving DecidableEq, Repr

/-- Row of the patients table (app/models.py, class Patient). -/
structure Patient where
  id : Nat
  name : String
  age : Option Int
  contact : Option String
  notes : Option String
  created_by : String
  assigned_doctor_email : Option String
  deriving DecidableEq, Repr

/-- Row of the consultations table (app/models.py, class Consultation).
scheduled_at is modelled by its ISO-8601 rendering as a string, so the
Python isoformat call is the identity on the model. -/
structure Consultation where
  id : Nat
  patient_id : Nat
  video_url : String
  scheduled_at : Option String
  created_by : String
  status : String
  doctor_notes : Option String
  deriving DecidableEq, Repr

/-- The whole database: the three tables plus the next autoincrement ids
(SQLite primary keys start at 1 and are assigned monotonically). -/
structure Store where
  users : List User
  patients : List Patient
  consultations : List Consultation
  next_user_id : Nat
  next_patient_id : Nat
  next_consultation_id : Nat
  deriving DecidableEq, Repr

/-- The empty database. -/
def emptyStore : Store := ⟨[], [], [], 1, 1, 1⟩

/-- Request body of POST /register (app/schemas.py, RegisterUser). -/
structure RegisterUser where
  name : String
  email : String
  password : String
  role : String
  deriving DecidableEq, Repr

/-- Request body of POST /login (app/schemas.py, LoginRequest). -/
structure LoginRequest where
  email : String
  password : String
  deriving DecidableEq, Repr

/-- Request body of POST /patients/create (app/schemas.py, PatientCreate). -/
structure PatientCreate where
  name : String
  age : Option Int
  contact : Option String
  notes : Option String
  deriving DecidableEq, Repr

/-- Request body of POST /patients/assign (app/schemas.py,
AssignPatientRequest). -/
structure AssignPatientRequest where
  patient_id : Nat
  doctor_email : String
  deriving DecidableEq, Repr

/-- Request body of POST /consultations/schedule (app/schemas.py,
ScheduleConsultationRequest). -/
structure ScheduleConsultationRequest where
  patient_id : Nat
  scheduled_at : Option String
  deriving DecidableEq, Repr

/-- Request body of the three sharing handlers (app/schemas.py,
ConsultationShareRequest). -/
structure ConsultationShareRequest where
  consultation_id : Nat
  phone_e164 : Option String
  deriving DecidableEq, Repr

/-- Python str.lower, applied character by character (the handlers only
normalize ASCII emails). -/
def pyLower (s : String) : String := String.mk (s.data.map Char.toLower)

/-- Python str.strip: remove leading and trailing whitespace. -/
def pyStrip (s : String) : String :=
  String.mk (((s.data.dropWhile Char.isWhitespace).reverse.dropWhile Char.isWhitespace).reverse)

/-- The email normalization the handlers apply: lower().strip(). -/
def normEmail (e : String) : String := pyStrip (pyLower e)

/-- Python str.replace with a one-character pattern and empty replacement,
the only form the handlers use: remove every occurrence of the character. -/
def removeChar (c : Char) (s : String) : String :=
  String.mk (s.data.filter (fun ch => ch != c))

/-- Python truthiness of an optional string: None and the empty string are
falsy, every other string is truthy. -/
def truthy : Option String → Bool
  | none => false
  | some s => !s.isEmpty

theorem truthy_none : truthy none = false := rfl

theorem truthy_some (s : String) : truthy (some s) = !s.isEmpty := rfl

/-- db.query(User).filter(User.email == email).first() -/
def findUserByEmail (s : Store) (email : String) : Option User :=
  s.users.find? (fun u => u.email == email)

/-- db.query(Patient).filter(Patient.id == pid).first() -/
def findPatient (s : Store) (pid : Nat) : Option Patient :=
  s.patients.find? (fun p => p.id == pid)

/-- db.query(Consultation).filter(Consultation.id == cid).first() -/
def findConsultation (s : Store) (cid : Nat) : Option Consultation :=
  s.consultations.find? (fun c => c.id == cid)

/-- Insertion step of the sort by descending id used to model the SQL
order_by(id.desc()) clauses. -/
def insertByIdDesc (key : α → Nat) (x : α) : List α → List α
  | [] => [x]
  | y :: ys => if key y < key x then x :: y :: ys else y :: insertByIdDesc key x ys

/-- Sort by descending key, modelling order_by(id.desc()). -/
def orderByIdDesc (key : α → Nat) : List α → List α
  | [] => []
  | x :: xs => insertByIdDesc key x (orderByIdDesc key xs)

/-- POST /register (app/main.py, register).  Email is normalized with
lower().strip(); a duplicate normalized email violates the unique
constraint, the commit raises IntegrityError, the transaction is rolled
back and a 400 is raised, so the store is unchanged.  hashP is the
injected hash_password primitive. -/
def register (hashP : String → String) (s : Store) (payload : RegisterUser) :
    Except ApiError (Store × User) :=
  let em := normEmail payload.email
  if s.users.any (fun u => u.email == em) then
    Except.error ⟨400, "Email already registered"⟩
  else
    let user : User := ⟨s.next_user_id, payload.name, em, hashP payload.password, payload.role⟩
    Except.ok ({ s with users := s.users ++ [user], next_user_id := s.next_user_id + 1 }, user)

/-- POST /login (app/main.py, login).  On success the handler issues a token
embedding sub = user.email and role = user.role; the model returns that
embedded pair.  verifyP is the injected verify_password primitive. -/
def login (verifyP : String → String → Bool) (s : Store) (payload : LoginRequest) :
    Except ApiError (String × String) :=
  match findUserByEmail s (normEmail payload.email) with
  | none => Except.error ⟨400, "Invalid email or password"⟩
  | some user =>
    if verifyP payload.password user.password_hash then
      Except.ok (user.email, user.role)
    else
      Except.error ⟨400, "Invalid email or password"⟩

/-- POST /patients/create (app/main.py, create_patient). -/
def create_patient (s : Store) (current_user : User) (payload : PatientCreate) :
    Except ApiError (Store × Patient) :=
  if current_user.role != "sales" then
    Except.error ⟨403, "Only sales role can create patients"⟩
  else
    let patient : Patient :=
      ⟨s.next_patient_id, payload.name, payload.age, payload.contact, payload.notes,
        current_user.email, none⟩
    Except.ok ({ s with patients := s.patients ++ [patient],
                        next_patient_id := s.next_patient_id + 1 }, patient)

/-- GET /patients/list (app/main.py, list_patients). -/
def list_patients (s : Store) (current_user : User) : Except ApiError (List Patient) :=
  if current_user.role == "sales" then
    Except.ok (orderByIdDesc (fun p => p.id) s.patients)
  else if current_user.role == "doctor" then
    Except.ok (orderByIdDesc (fun p => p.id)
      (s.patients.filter (fun p => p.assigned_doctor_email == some current_user.email)))
  else
    Except.error ⟨403, "Role not permitted"⟩

/-- POST /patients/assign (app/main.py, assign_patient). -/
def assign_patient (s : Store) (current_user : User) (payload : AssignPatientRequest) :
    Except ApiError (Store × Patient) :=
  if current_user.role != "sales" then
    Except.error ⟨403, "Only sales can assign patients"⟩
  else
    match findPatient s payload.patient_id with
    | none => Except.error ⟨404, "Patient not found"⟩
    | some patient =>
      match findUserByEmail s (normEmail payload.doctor_email) with
      | none => Except.error ⟨400, "Doctor email invalid or not a doctor"⟩
      | some doctor =>
        if doctor.role != "doctor" then
          Except.error ⟨400, "Doctor email invalid or not a doctor"⟩
        else
          let updated := { patient with assigned_doctor_email := some doctor.email }
          let patients := s.patients.map (fun p => if p.id == patient.id then updated else p)
          Except.ok ({ s with patients := patients }, updated)

/-- POST /consultations/schedule (app/main.py, schedule_consultation).
tok is the injected secrets.token_urlsafe(6) value. -/
def schedule_consultation (tok : String) (s : Store) (current_user : User)
    (payload : ScheduleConsultationRequest) : Except ApiError (Store × Consultation) :=
  match findPatient s payload.patient_id with
  | none => Except.error ⟨404, "Patient not found"⟩
  | some patient =>
    if current_user.role == "doctor" && patient.assigned_doctor_email != some current_user.email then
      Except.error ⟨403, "Doctor not assigned to this patient"⟩
    else if current_user.role != "sales" && current_user.role != "doctor" then
      Except.error ⟨403, "Not allowed to schedule consultations"⟩
    else
      let video_url := "https://meet.jit.si/Prakvedaa-" ++ tok
      let cons : Consultation :=
        ⟨s.next_consultation_id, patient.id, video_url, payload.scheduled_at,
          current_user.email, "pending", none⟩
      Except.ok ({ s with consultations := s.consultations ++ [cons],
                          next_consultation_id := s.next_consultation_id + 1 }, cons)

/-- The doctor line of the share messages: patient.assigned_doctor_email or
"TBD" (Python or: None and the empty string both fall back to "TBD"). -/
def docStr (p : Patient) : String :=
  match p.assigned_doctor_email with
  | none => "TBD"
  | some e => if e.isEmpty then "TBD" else e

/-- The time line of the share messages: cons.scheduled_at.isoformat() if
truthy else "Now"; scheduled_at is already modelled by its ISO rendering. -/
def whenStr (c : Consultation) : String :=
  match c.scheduled_at with
  | none => "Now"
  | some t => t

/-- POST /consultations/share-message (app/main.py, share_message).  The
literal prefixes reproduce the exact non-ASCII characters stored in the
source file. -/
def share_message (s : Store) (current_user : User) (payload : ConsultationShareRequest) :
    Except ApiError String :=
  match findConsultation s payload.consultation_id with
  | none => Except.error ⟨404, "Consultation not found"⟩
  | some cons =>
    match findPatient s cons.patient_id with
    | none => Except.error ⟨404, "Patient not found"⟩
    | some patient =>
      if current_user.role == "doctor" && patient.assigned_doctor_email != some current_user.email then
        Except.error ⟨403, "Not allowed to share this consultation"⟩
      else
        Except.ok ("Hello " ++ patient.name ++ ", your video consultation is scheduled.\n" ++
          "üîó Link: " ++ cons.video_url ++ "\n" ++
          "üë®‚Äç‚öïÔ∏è Doctor: " ++
          docStr patient ++ "\n" ++
          "üïí Time: " ++ whenStr cons ++ "\n" ++
          "‚Äî Sent by " ++ current_user.email)

/-- UTF-8 encoding of a character as its byte values. -/
def utf8Bytes (c : Char) : List Nat :=
  let n := c.toNat
  if n < 0x80 then [n]
  else if n < 0x800 then [0xC0 + n / 0x40, 0x80 + n % 0x40]
  else if n < 0x10000 then [0xE0 + n / 0x1000, 0x80 + n / 0x40 % 0x40, 0x80 + n % 0x40]
  else [0xF0 + n / 0x40000, 0x80 + n / 0x1000 % 0x40, 0x80 + n / 0x40 % 0x40, 0x80 + n % 0x40]

/-- One hexadecimal digit, uppercase. -/
def hexDigit (n : Nat) : Char :=
  if n < 10 then Char.ofNat (48 + n) else Char.ofNat (55 + n)

/-- Percent-encoding of one byte value with uppercase hexadecimal. -/
def percentByte (b : Nat) : String :=
  String.mk ['%', hexDigit (b / 16 % 16), hexDigit (b % 16)]

/-- urllib.parse.quote_plus: ASCII letters, digits and the characters
underscore, dot, hyphen and tilde pass through, a space becomes a plus sign,
and every other character is percent-encoded per UTF-8 byte. -/
def quote_plus (s : String) : String :=
  s.data.foldl (fun acc c =>
    if c = ' ' then acc ++ "+"
    else if c.isAlphanum || c = '_' || c = '.' || c = '-' || c = '~' then
      acc ++ String.singleton c
    else
      acc ++ String.join ((utf8Bytes c).map percentByte)) ""

/-- POST /consultations/whatsapp-link (app/main.py, whatsapp_link). -/
def whatsapp_link (s : Store) (current_user : User) (payload : ConsultationShareRequest) :
    Except ApiError String :=
  match findConsultation s payload.consultation_id with
  | none => Except.error ⟨404, "Consultation not found"⟩
  | some cons =>
    match findPatient s cons.patient_id with
    | none => Except.error ⟨404, "Patient not found"⟩
    | some patient =>
      if current_user.role == "doctor" && patient.assigned_doctor_email != some current_user.email then
        Except.error ⟨403, "Not allowed to share this consultation"⟩
      else
        let msg := "Hello " ++ patient.name ++ ", your video consultation is scheduled.\n" ++
          "Link: " ++ cons.video_url ++ "\n" ++
          "Doctor: " ++ docStr patient ++ "\n" ++
          "Time: " ++ whenStr cons
        let encoded := quote_plus msg
        let phone : Option String :=
          if truthy payload.phone_e164 then payload.phone_e164
          else if truthy patient.contact then
            some (removeChar ' ' (removeChar '+' (patient.contact.getD "")))
          else none
        if !truthy phone then
          Except.error ⟨400, "No phone provided and patient.contact empty"⟩
        else
          Except.ok ("https://wa.me/" ++ phone.getD "" ++ "?text=" ++ encoded)

/-- POST /consultations/send-whatsapp (app/main.py, whatsapp_send_direct).
The handler body is transcribed independently from its own source lines. -/
def whatsapp_send_direct (s : Store) (current_user : User) (payload : ConsultationShareRequest) :
    Except ApiError String :=
  match findConsultation s payload.consultation_id with
  | none => Except.error ⟨404, "Consultation not found"⟩
  | some cons =>
    match findPatient s cons.patient_id with
    | none => Except.error ⟨404, "Patient not found"⟩
    | some patient =>
      if current_user.role == "doctor" && patient.assigned_doctor_email != some current_user.email then
        Except.error ⟨403, "Not allowed to share this consultation"⟩
      else
        let msg := "Hello " ++ patient.name ++ ", your video consultation is scheduled.\n" ++
          "Link: " ++ cons.video_url ++ "\n" ++
          "Doctor: " ++ docStr patient ++ "\n" ++
          "Time: " ++ whenStr cons
        let encoded := quote_plus msg
        let phone : Option String :=
          if truthy payload.phone_e164 then payload.phone_e164
          else if truthy patient.contact then
            some (removeChar ' ' (removeChar '+' (patient.contact.getD "")))
          else none
        if !truthy phone then
          Except.error ⟨400, "No phone provided and patient.contact empty"⟩
        else
          Except.ok ("https://wa.me/" ++ phone.getD "" ++ "?text=" ++ encoded)

/-- GET /users (app/main.py, list_users).  The role query parameter filters
only when truthy (Python: if role).  The authenticated caller is taken as a
parameter but never inspected: the handler has no role check. -/
def list_users (s : Store) (_current_user : User) (role : Option String) :
    Except ApiError (List User) :=
  let q := if truthy role then s.users.filter (fun u => u.role == role.getD "") else s.users
  Except.ok (orderByIdDesc (fun u => u.id) q)

/-- The mutation performed by PATCH /consultations/update once authorization
has passed: notes, when not None and non-empty, is stripped and stored
(an empty string stores the existing value back, so nothing changes);
status, when not None, is lowercased and stored. -/
def applyUpdate (s : Store) (consultation : Consultation) (notes status : Option String) :
    Store × Consultation :=
  let c1 := match notes with
    | none => consultation
    | some n => if n.isEmpty then consultation
                else { consultation with doctor_notes := some (pyStrip n) }
  let c2 := match status with
    | none => c1
    | some st => { c1 with status := pyLower st }
  let consultations := s.consultations.map (fun c => if c.id == consultation.id then c2 else c)
  ({ s with consultations := consultations }, c2)

/-- PATCH /consultations/update (app/main.py, update_consultation).  When the
caller is a doctor and the patient row referenced by the consultation is
missing, the handler dereferences None and dies with an unhandled
AttributeError; that path is modelled as the outer none. -/
def update_consultation (s : Store) (current_user : User) (consultation_id : Nat)
    (notes status : Option String) : Option (Except ApiError (Store × Consultation)) :=
  match findConsultation s consultation_id with
  | none => some (Except.error ⟨404, "Consultation not found"⟩)
  | some consultation =>
    if current_user.role == "doctor" then
      match findPatient s consultation.patient_id with
      | none => none
      | some patient =>
        if patient.assigned_doctor_email != some current_user.email then
          some (Except.error ⟨403, "Not allowed to update this consultation"⟩)
        else
          some (Except.ok (applyUpdate s consultation notes status))
    else
      some (Except.ok (applyUpdate s consultation notes status))

/-- A list is sorted by descending key. -/
def SortedByIdDesc (key : α → Nat) (l : List α) : Prop :=
  List.Pairwise (fun a b => key b ≤ key a) l

theorem mem_insertByIdDesc {key : α → Nat} {x a : α} {l : List α} :
    a ∈ insertByIdDesc key x l ↔ a = x ∨ a ∈ l := by
  induction l with
  | nil => simp [insertByIdDesc]
  | cons y ys ih =>
    simp only [insertByIdDesc]
    split
    · simp
    · simp only [List.mem_cons, ih]
      tauto

theorem perm_insertByIdDesc (key : α → Nat) (x : α) (l : List α) :
    List.Perm (insertByIdDesc key x l) (x :: l) := by
  induction l with
  | nil => simp [insertByIdDesc]
  | cons y ys ih =>
    simp only [insertByIdDesc]
    split
    · exact List.Perm.refl _
    · exact (ih.cons y).trans (List.Perm.swap x y ys)

theorem perm_orderByIdDesc (key : α → Nat) (l : List α) :
    List.Perm (orderByIdDesc key l) l := by
  induction l with
  | nil => simp [orderByIdDesc]
  | cons x xs ih =>
    exact (perm_insertByIdDesc key x _).trans (ih.cons x)

theorem mem_orderByIdDesc {key : α → Nat} {a : α} {l : List α} :
    a ∈ orderByIdDesc key l ↔ a ∈ l :=
  (perm_orderByIdDesc key l).mem_iff

theorem sorted_insertByIdDesc {key : α → Nat} {x : α} {l : List α}
    (h : SortedByIdDesc key l) : SortedByIdDesc key (insertByIdDesc key x l) := by
  induction l with
  | nil => simp [insertByIdDesc, SortedByIdDesc]
  | cons y ys ih =>
    rcases List.pairwise_cons.mp h with ⟨hy, hys⟩
    simp only [insertByIdDesc]
    split
    case isTrue hlt =>
      refine List.pairwise_cons.mpr ⟨?_, h⟩
      intro z hz
      rcases List.mem_cons.mp hz with hz | hz
      · subst hz; exact Nat.le_of_lt hlt
      · exact Nat.le_trans (hy z hz) (Nat.le_of_lt hlt)
    case isFalse hge =>
      refine List.pairwise_cons.mpr ⟨?_, ih hys⟩
      intro z hz
      rcases mem_insertByIdDesc.mp hz with hz | hz
      · subst hz; exact Nat.le_of_not_lt hge
      · exact hy z hz

theorem sorted_orderByIdDesc (key : α → Nat) (l : List α) :
    SortedByIdDesc key (orderByIdDesc key l) := by
  induction l with
  | nil => simp [orderByIdDesc, SortedByIdDesc]
  | cons x xs ih => exact sorted_insertByIdDesc ih

theorem register_ok_shape {hashP : String → String} {s : Store} {payload : RegisterUser}
    {s' : Store} {u : User} (h : register hashP s payload = Except.ok (s', u)) :
    u.email = normEmail payload.email ∧ u.role = payload.role ∧
    s'.users = s.users ++ [u] ∧ s'.patients = s.patients ∧
    s'.consultations = s.consultations := by
  simp only [register] at h
  split at h
  · cases h
  · simp only [Except.ok.injEq, Prod.mk.injEq] at h
    obtain ⟨hs, hu⟩ := h
    subst hu; subst hs
    exact ⟨rfl, rfl, rfl, rfl, rfl⟩

theorem create_patient_ok_shape {s : Store} {cu : User} {payload : PatientCreate}
    {s' : Store} {p : Patient} (h : create_patient s cu payload = Except.ok (s', p)) :
    p.assigned_doctor_email = none ∧ s'.users = s.users ∧
    s'.patients = s.patients ++ [p] ∧ s'.consultations = s.consultations := by
  simp only [create_patient] at h
  split at h
  · cases h
  · simp only [Except.ok.injEq, Prod.mk.injEq] at h
    obtain ⟨hs, hp⟩ := h
    subst hp; subst hs
    exact ⟨rfl, rfl, rfl, rfl⟩

theorem assign_patient_ok_shape {s : Store} {cu : User} {payload : AssignPatientRequest}
    {s' : Store} {p : Patient} (h : assign_patient s cu payload = Except.ok (s', p)) :
    s'.users = s.users ∧ s'.consultations = s.consultations ∧
    ∃ patient doctor,
      findPatient s payload.patient_id = some patient ∧
      findUserByEmail s (normEmail payload.doctor_email) = some doctor ∧
      doctor.role = "doctor" ∧
      p = { patient with assigned_doctor_email := some doctor.email } ∧
      s'.patients = s.patients.map (fun q => if q.id == patient.id then p else q) := by
  simp only [assign_patient] at h
  split at h
  · cases h
  · split at h
    · cases h
    · rename_i patient hpatient
      split at h
      · cases h
      · rename_i doctor hdoctor
        split at h
        · cases h
        · rename_i hrole
          simp only [Except.ok.injEq, Prod.mk.injEq] at h
          obtain ⟨hs, hp⟩ := h
          subst hp; subst hs
          refine ⟨rfl, rfl, patient, doctor, hpatient, hdoctor, ?_, rfl, rfl⟩
          simpa using hrole

theorem schedule_ok_shape {tok : String} {s : Store} {cu : User}
    {payload : ScheduleConsultationRequest} {s' : Store} {c : Consultation}
    (h : schedule_consultation tok s cu payload = Except.ok (s', c)) :
    s'.users = s.users ∧ s'.patients = s.patients := by
  simp only [schedule_consultation] at h
  split at h
  · cases h
  · split at h
    · cases h
    · split at h
      · cases h
      · simp only [Except.ok.injEq, Prod.mk.injEq] at h
        obtain ⟨hs, hc⟩ := h
        subst hc; subst hs
        exact ⟨rfl, rfl⟩

theorem applyUpdate_fst_frame (s : Store) (cons : Consultation) (notes status : Option String) :
    (applyUpdate s cons notes status).1.users = s.users ∧
    (applyUpdate s cons notes status).1.patients = s.patients :=
  ⟨rfl, rfl⟩

theorem update_ok_shape {s : Store} {cu : User} {cid : Nat} {notes status : Option String}
    {s' : Store} {c : Consultation}
    (h : update_consultation s cu cid notes status = some (Except.ok (s', c))) :
    s'.users = s.users ∧ s'.patients = s.patients := by
  simp only [update_consultation] at h
  split at h
  · simp at h
  · rename_i consultation hcons
    split at h
    · split at h
      · cases h
      · split at h
        · simp at h
        · simp only [Option.some.injEq, Except.ok.injEq] at h
          have h1 := congrArg Prod.fst h
          simp only at h1
          rw [← h1]
          exact applyUpdate_fst_frame s consultation notes status
    · simp only [Option.some.injEq, Except.ok.injEq] at h
      have h1 := congrArg Prod.fst h
      simp only at h1
      rw [← h1]
      exact applyUpdate_fst_frame s consultation notes status

/-- Data-model invariant: every patient whose assigned_doctor_email is set
references a registered user whose role is doctor. -/
def DoctorAssignmentInvariant (s : Store) : Prop :=
  ∀ p ∈ s.patients, ∀ e, p.assigned_doctor_email = some e →
    ∃ u ∈ s.users, u.email = e ∧ u.role = "doctor"

/-- Stores reachable from the empty database through the state-mutating API
operations (the read-only handlers leave the store unchanged).  The
authenticated operations require the caller to be a registered user, as
get_current_user does. -/
inductive Reachable : Store → Prop
  | empty : Reachable emptyStore
  | step_register (hashP : String → String) (payload : RegisterUser)
      (s s' : Store) (u : User) :
      Reachable s → register hashP s payload = Except.ok (s', u) → Reachable s'
  | step_create_patient (cu : User) (payload : PatientCreate) (s s' : Store) (p : Patient) :
      Reachable s → cu ∈ s.users →
      create_patient s cu payload = Except.ok (s', p) → Reachable s'
  | step_assign_patient (cu : User) (payload : AssignPatientRequest) (s s' : Store) (p : Patient) :
      Reachable s → cu ∈ s.users →
      assign_patient s cu payload = Except.ok (s', p) → Reachable s'
  | step_schedule (tok : String) (cu : User) (payload : ScheduleConsultationRequest)
      (s s' : Store) (c : Consultation) :
      Reachable s → cu ∈ s.users →
      schedule_consultation tok s cu payload = Except.ok (s', c) → Reachable s'
  | step_update (cu : User) (cid : Nat) (notes status : Option String)
      (s s' : Store) (c : Consultation) :
      Reachable s → cu ∈ s.users →
      update_consultation s cu cid notes status = some (Except.ok (s', c)) → Reachable s'

/-- C3: every reachable store satisfies the doctor-assignment invariant:
assignment is only established from a registered user with role doctor,
registration never removes a user or changes a role, and the other
operations leave users and assignments untouched. -/
theorem c3_doctor_assignment_invariant (s : Store) (h : Reachable s) :
    DoctorAssignmentInvariant s := by
  induction h with
  | empty =>
    intro p hp e _he
    simp [emptyStore] at hp
  | step_register hashP payload s s' u _hr hok ih =>
    obtain ⟨-, -, husers, hpat, -⟩ := register_ok_shape hok
    intro p hp e he
    rw [hpat] at hp
    obtain ⟨w, hw, hwe⟩ := ih p hp e he
    exact ⟨w, by rw [husers]; exact List.mem_append_left _ hw, hwe⟩
  | step_create_patient cu payload s s' p _hr _hcu hok ih =>
    obtain ⟨hassigned, husers, hpat, -⟩ := create_patient_ok_shape hok
    intro q hq e he
    rw [hpat] at hq
    rcases List.mem_append.mp hq with hq | hq
    · obtain ⟨w, hw, hwe⟩ := ih q hq e he
      exact ⟨w, by rw [husers]; exact hw, hwe⟩
    · simp only [List.mem_singleton] at hq
      subst hq
      rw [hassigned] at he
      cases he
  | step_assign_patient cu payload s s' p _hr _hcu hok ih =>
    obtain ⟨husers, -, patient, doctor, _hpat, hdoc, hrole, hp, hpats⟩ :=
      assign_patient_ok_shape hok
    intro q hq e he
    rw [hpats] at hq
    rcases List.mem_map.mp hq with ⟨q0, hq0, rfl⟩
    by_cases hid : (q0.id == patient.id) = true
    · rw [if_pos hid] at he
      rw [hp] at he
      simp only [Option.some.injEq] at he
      refine ⟨doctor, ?_, ?_, hrole⟩
      · rw [husers]
        exact List.mem_of_find?_eq_some hdoc
      · exact he
    · rw [if_neg hid] at he
      obtain ⟨w, hw, hwe⟩ := ih q0 hq0 e he
      exact ⟨w, by rw [husers]; exact hw, hwe⟩
  | step_schedule tok cu payload s s' c _hr _hcu hok ih =>
    obtain ⟨husers, hpats⟩ := schedule_ok_shape hok
    intro q hq e he
    rw [hpats] at hq
    obtain ⟨w, hw, hwe⟩ := ih q hq e he
    exact ⟨w, by rw [husers]; exact hw, hwe⟩
  | step_update cu cid notes status s s' c _hr _hcu hok ih =>
    obtain ⟨husers, hpats⟩ := update_ok_shape hok
    intro q hq e he
    rw [hpats] at hq
    obtain ⟨w, hw, hwe⟩ := ih q hq e he
    exact ⟨w, by rw [husers]; exact hw, hwe⟩

/-- True when a handler result is a success. -/
def isOkE : Except ApiError α → Bool
  | Except.ok _ => true
  | Except.error _ => false

def c3uSales : User := ⟨1, "Alice", "sales@x.com", "secret", "sales"⟩

def c3uDoc : User := ⟨2, "Bob", "doc@x.com", "secret2", "doctor"⟩

def c3patient : Patient := ⟨1, "Pat", some 30, some "+91 98765 43210", none, "sales@x.com", none⟩

def c3patientAssigned : Patient := { c3patient with assigned_doctor_email := some "doc@x.com" }

def c3s1 : Store := ⟨[c3uSales], [], [], 2, 1, 1⟩

def c3s2 : Store := ⟨[c3uSales, c3uDoc], [], [], 3, 1, 1⟩

def c3s3 : Store := ⟨[c3uSales, c3uDoc], [c3patient], [], 3, 2, 1⟩

def c3s4 : Store := ⟨[c3uSales, c3uDoc], [c3patientAssigned], [], 3, 2, 1⟩

/-- Witness for C3: the invariant holds at a concrete reachable store built by
registering a sales user and a doctor, creating a patient and assigning it. -/
theorem c3_witness : DoctorAssignmentInvariant c3s4 :=
  c3_doctor_assignment_invariant c3s4
    (Reachable.step_assign_patient c3uSales ⟨1, "doc@x.com"⟩ c3s3 c3s4 c3patientAssigned
      (Reachable.step_create_patient c3uSales ⟨"Pat", some 30, some "+91 98765 43210", none⟩
        c3s2 c3s3 c3patient
        (Reachable.step_register (fun p => p) ⟨"Bob", "doc@x.com", "secret2", "doctor"⟩
          c3s1 c3s2 c3uDoc
          (Reachable.step_register (fun p => p) ⟨"Alice", "sales@x.com", "secret", "sales"⟩
            emptyStore c3s1 c3uSales Reachable.empty rfl)
          rfl)
        (by decide) rfl)
      (by decide) rfl)

/-- C9: the whatsapp-link handler and the send-whatsapp handler are
extensionally equal: on the same store, caller and request they return the
same link or the same error. -/
theorem c9_whatsapp_handlers_equal (s : Store) (u : User)
    (payload : ConsultationShareRequest) :
    whatsapp_link s u payload = whatsapp_send_direct s u payload := rfl

/-- C6: authenticating with an unknown email and authenticating with an
existing email but a wrong password produce the same error, the literal
400 with detail Invalid email or password; account existence does not leak. -/
theorem c6_login_indistinguishable (verifyP : String → String → Bool) (s : Store)
    (payload : LoginRequest) :
    (findUserByEmail s (normEmail payload.email) = none →
      login verifyP s payload = Except.error ⟨400, "Invalid email or password"⟩) ∧
    (∀ usr, findUserByEmail s (normEmail payload.email) = some usr →
      verifyP payload.password usr.password_hash = false →
      login verifyP s payload = Except.error ⟨400, "Invalid email or password"⟩) := by
  constructor
  · intro h
    simp [login, h]
  · intro usr h hv
    simp [login, h, hv]

def c6store : Store := ⟨[⟨1, "Alice", "alice@x.com", "hashed", "sales"⟩], [], [], 2, 1, 1⟩

/-- Witness for C6: a missing account and a wrong password yield the very
same error on a concrete store. -/
theorem c6_witness :
    login (fun _ _ => false) c6store ⟨"bob@x.com", "pw"⟩ =
      Except.error ⟨400, "Invalid email or password"⟩ ∧
    login (fun _ _ => false) c6store ⟨"alice@x.com", "wrong"⟩ =
      Except.error ⟨400, "Invalid email or password"⟩ :=
  ⟨(c6_login_indistinguishable (fun _ _ => false) c6store ⟨"bob@x.com", "pw"⟩).1 rfl,
   (c6_login_indistinguishable (fun _ _ => false) c6store ⟨"alice@x.com", "wrong"⟩).2
     ⟨1, "Alice", "alice@x.com", "hashed", "sales"⟩ rfl rfl⟩

/-- C8: when two registration requests normalize to the same email, the
second fails with the uniqueness-violation error (the Conflict kind of the
specification: status 400, detail Email already registered) and returns no
new store, so the user table is unchanged. -/
theorem c8_duplicate_email_conflict (hashP : String → String) (s s1 : Store)
    (p1 p2 : RegisterUser) (u1 : User)
    (hnorm : normEmail p2.email = normEmail p1.email)
    (h1 : register hashP s p1 = Except.ok (s1, u1)) :
    register hashP s1 p2 = Except.error ⟨400, "Email already registered"⟩ := by
  obtain ⟨hemail, -, husers, -, -⟩ := register_ok_shape h1
  have hc : s1.users.any (fun u => u.email == normEmail p2.email) = true := by
    rw [husers, hnorm, List.any_append]
    simp [hemail]
  simp [register, hc]

def c8s1 : Store := ⟨[⟨1, "Alice", "sales@x.com", "secret", "sales"⟩], [], [], 2, 1, 1⟩

/-- Witness for C8: re-registering the same email modulo case and spacing is
rejected after a successful first registration. -/
theorem c8_witness :
    register (fun p => p) c8s1 ⟨"Alice2", " Sales@X.com ", "secret2", "sales"⟩ =
      Except.error ⟨400, "Email already registered"⟩ :=
  c8_duplicate_email_conflict (fun p => p) emptyStore c8s1
    ⟨"Alice", "sales@x.com", "secret", "sales"⟩
    ⟨"Alice2", " Sales@X.com ", "secret2", "sales"⟩
    ⟨1, "Alice", "sales@x.com", "secret", "sales"⟩ (by decide) rfl

def c1Admin : User := ⟨1, "Eve", "admin@x.com", "pw", "admin"⟩

def c1Patient : Patient := ⟨1, "Pat", some 30, some "+91 98765 43210", none, "sales@x.com", none⟩

def c1Cons : Consultation := ⟨1, 1, "https://meet.jit.si/Prakvedaa-x", none, "sales@x.com", "pending", none⟩

def c1Store : Store := ⟨[c1Admin], [c1Patient], [c1Cons], 2, 2, 2⟩

/-- C1 counterexample: a caller with role admin is not denied: on a store
with an existing consultation whose patient exists, all three handlers
succeed for the admin caller instead of failing with Forbidden. -/
theorem c1_counterexample :
    isOkE (share_message c1Store c1Admin ⟨1, none⟩) = true ∧
    isOkE (whatsapp_link c1Store c1Admin ⟨1, none⟩) = true ∧
    (update_consultation c1Store c1Admin 1 none (some "completed")).map
      (fun r => isOkE r) = some true :=
  ⟨rfl, rfl, rfl⟩

/-- C1 amended: for an existing consultation whose patient exists, the
share-message, whatsapp-link and consultation-update handlers deny with
Forbidden exactly a caller whose role is doctor and who is not the doctor
assigned to the patient; sales and every other role (admin included) pass
the permission check: share-message and consultation-update then succeed,
and whatsapp-link is never denied with the Forbidden error (it can only
fail further on phone validation). -/
theorem c1_amended_consultation_access (s : Store) (u : User)
    (payload : ConsultationShareRequest) (cons : Consultation) (patient : Patient)
    (hc : findConsultation s payload.consultation_id = some cons)
    (hp : findPatient s cons.patient_id = some patient) :
    ((u.role = "doctor" ∧ patient.assigned_doctor_email ≠ some u.email) →
      share_message s u payload = Except.error ⟨403, "Not allowed to share this consultation"⟩ ∧
      whatsapp_link s u payload = Except.error ⟨403, "Not allowed to share this consultation"⟩ ∧
      ∀ notes status, update_consultation s u payload.consultation_id notes status =
        some (Except.error ⟨403, "Not allowed to update this consultation"⟩)) ∧
    (¬(u.role = "doctor" ∧ patient.assigned_doctor_email ≠ some u.email) →
      isOkE (share_message s u payload) = true ∧
      whatsapp_link s u payload ≠
        Except.error ⟨403, "Not allowed to share this consultation"⟩ ∧
      ∀ notes status, (update_consultation s u payload.consultation_id notes status).map
        (fun r => isOkE r) = some true) := by
  constructor
  · rintro ⟨hrole, hne⟩
    have hb : (u.role == "doctor" && patient.assigned_doctor_email != some u.email) = true := by
      simp [hrole, hne]
    refine ⟨?_, ?_, ?_⟩
    · simp [share_message, hc, hp, hb]
    · simp [whatsapp_link, hc, hp, hb]
    · intro notes status
      simp [update_consultation, hc, hp, hrole, hne]
  · intro hn
    by_cases hrole : u.role = "doctor"
    · have hassigned : patient.assigned_doctor_email = some u.email := by
        by_contra hne
        exact hn ⟨hrole, hne⟩
      have hb : (u.role == "doctor" && patient.assigned_doctor_email != some u.email) = false := by
        simp [hassigned]
      refine ⟨?_, ?_, ?_⟩
      · simp [share_message, hc, hp, hb, isOkE]
      · simp only [whatsapp_link, hc, hp, hb, Bool.false_eq_true, if_false]
        repeat' split
        all_goals simp
      · intro notes status
        simp [update_consultation, hc, hp, hrole, hassigned, isOkE]
    · have hb : (u.role == "doctor" && patient.assigned_doctor_email != some u.email) = false := by
        simp [hrole]
      refine ⟨?_, ?_, ?_⟩
      · simp [share_message, hc, hp, hb, isOkE]
      · simp only [whatsapp_link, hc, hp, hb, Bool.false_eq_true, if_false]
        repeat' split
        all_goals simp
      · intro notes status
        simp [update_consultation, hc, hrole, isOkE]

def c1Doctor : User := ⟨1, "Dora", "dora@x.com", "pw", "doctor"⟩

def c1StoreD : Store := ⟨[c1Doctor], [c1Patient], [c1Cons], 2, 2, 2⟩

/-- Witness for the amended C1: a doctor not assigned to the patient is
denied with Forbidden on the share handler. -/
theorem c1_witness :
    share_message c1StoreD c1Doctor ⟨1, none⟩ =
      Except.error ⟨403, "Not allowed to share this consultation"⟩ :=
  ((c1_amended_consultation_access c1StoreD c1Doctor ⟨1, none⟩ c1Cons c1Patient rfl rfl).1
    (by decide)).1

/-- C2: listing patients: a sales caller receives the full registry, a
doctor receives exactly the patients whose assigned_doctor_email equals
the callers own email, and any other role is denied with Forbidden. -/
theorem c2_list_patients_visibility (s : Store) (u : User) :
    (u.role = "sales" → ∃ l, list_patients s u = Except.ok l ∧
      List.Perm l s.patients ∧ (∀ p, p ∈ l ↔ p ∈ s.patients)) ∧
    (u.role = "doctor" → ∃ l, list_patients s u = Except.ok l ∧
      (∀ p, p ∈ l ↔ p ∈ s.patients ∧ p.assigned_doctor_email = some u.email)) ∧
    (u.role ≠ "sales" → u.role ≠ "doctor" →
      list_patients s u = Except.error ⟨403, "Role not permitted"⟩) := by
  refine ⟨?_, ?_, ?_⟩
  · intro hrole
    refine ⟨orderByIdDesc (fun p => p.id) s.patients, ?_, perm_orderByIdDesc _ _, ?_⟩
    · simp [list_patients, hrole]
    · intro p
      exact mem_orderByIdDesc
  · intro hrole
    refine ⟨orderByIdDesc (fun p => p.id)
        (s.patients.filter (fun p => p.assigned_doctor_email == some u.email)), ?_, ?_⟩
    · simp [list_patients, hrole]
    · intro p
      rw [mem_orderByIdDesc, List.mem_filter]
      simp
  · intro h1 h2
    simp [list_patients, h1, h2]

def c2doctor : User := ⟨2, "Dora", "dora@x.com", "pw", "doctor"⟩

def c2p1 : Patient := ⟨1, "P1", none, none, none, "s@x.com", some "dora@x.com"⟩

def c2p2 : Patient := ⟨2, "P2", none, none, none, "s@x.com", none⟩

def c2p3 : Patient := ⟨3, "P3", none, none, none, "s@x.com", some "other@x.com"⟩

def c2store : Store := ⟨[c2doctor], [c2p1, c2p2, c2p3], [], 3, 4, 1⟩

/-- Witness for C2: on a concrete store a doctor caller sees the assigned
patient and sees neither the unassigned one nor the one assigned to a
different doctor. -/
theorem c2_witness :
    ∃ l, list_patients c2store c2doctor = Except.ok l ∧
      (c2p1 ∈ l ↔ c2p1 ∈ c2store.patients ∧ c2p1.assigned_doctor_email = some c2doctor.email) ∧
      (c2p2 ∈ l ↔ c2p2 ∈ c2store.patients ∧ c2p2.assigned_doctor_email = some c2doctor.email) ∧
      (c2p3 ∈ l ↔ c2p3 ∈ c2store.patients ∧ c2p3.assigned_doctor_email = some c2doctor.email) := by
  obtain ⟨l, hl, hmem⟩ := ((c2_list_patients_visibility c2store c2doctor).2.1) rfl
  exact ⟨l, hl, hmem c2p1, hmem c2p2, hmem c2p3⟩

/-- C4: for a sales caller, assignment to a missing patient id fails with
NotFound, and assignment whose normalized doctor_email does not resolve to
an existing user with role doctor fails with the InvalidRequest error; an
error result carries no new store, so the patient rows are unchanged. -/
theorem c4_assign_patient_validation (s : Store) (u : User) (payload : AssignPatientRequest)
    (hrole : u.role = "sales") :
    (findPatient s payload.patient_id = none →
      assign_patient s u payload = Except.error ⟨404, "Patient not found"⟩) ∧
    (∀ patient, findPatient s payload.patient_id = some patient →
      (¬∃ d, findUserByEmail s (normEmail payload.doctor_email) = some d ∧ d.role = "doctor") →
      assign_patient s u payload = Except.error ⟨400, "Doctor email invalid or not a doctor"⟩) := by
  constructor
  · intro h
    simp [assign_patient, hrole, h]
  · intro patient hpatient hnd
    rcases hd : findUserByEmail s (normEmail payload.doctor_email) with _ | d
    · simp [assign_patient, hrole, hpatient, hd]
    · have hdr : d.role ≠ "doctor" := by
        intro hr
        exact hnd ⟨d, hd, hr⟩
      simp [assign_patient, hrole, hpatient, hd, hdr]

def c4sales : User := ⟨1, "Sam", "sam@x.com", "pw", "sales"⟩

def c4patient : Patient := ⟨1, "P1", none, none, none, "sam@x.com", none⟩

def c4store : Store := ⟨[c4sales], [c4patient], [], 2, 2, 1⟩

/-- Witness for C4: on a concrete store, assigning a missing patient id is
NotFound and assigning to an email that is no registered doctor is the
InvalidRequest error. -/
theorem c4_witness :
    assign_patient c4store c4sales ⟨7, "dora@x.com"⟩ =
      Except.error ⟨404, "Patient not found"⟩ ∧
    assign_patient c4store c4sales ⟨1, "nobody@x.com"⟩ =
      Except.error ⟨400, "Doctor email invalid or not a doctor"⟩ :=
  ⟨(c4_assign_patient_validation c4store c4sales ⟨7, "dora@x.com"⟩ rfl).1 rfl,
   (c4_assign_patient_validation c4store c4sales ⟨1, "nobody@x.com"⟩ rfl).2 c4patient rfl
     (by decide)⟩

theorem update_ok_applyUpdate {s : Store} {u : User} {cid : Nat} {notes status : Option String}
    {s' : Store} {c : Consultation} {cons : Consultation}
    (hc : findConsultation s cid = some cons)
    (h : update_consultation s u cid notes status = some (Except.ok (s', c))) :
    (s', c) = applyUpdate s cons notes status := by
  simp only [update_consultation, hc] at h
  split at h
  · split at h
    · cases h
    · split at h
      · simp at h
      · simp only [Option.some.injEq, Except.ok.injEq] at h
        exact h.symm
  · simp only [Option.some.injEq, Except.ok.injEq] at h
    exact h.symm

/-- C5: partial update of an existing consultation: providing only status
leaves doctor_notes unchanged, providing only notes leaves status
unchanged; the stored row is exactly the returned one. -/
theorem c5_partial_update_frame (s : Store) (u : User) (cid : Nat) (cons : Consultation)
    (hc : findConsultation s cid = some cons) :
    (∀ st s' c, update_consultation s u cid none (some st) = some (Except.ok (s', c)) →
      c.doctor_notes = cons.doctor_notes ∧ c.status = pyLower st ∧
      s'.consultations = s.consultations.map (fun x => if x.id == cons.id then c else x)) ∧
    (∀ n s' c, update_consultation s u cid (some n) none = some (Except.ok (s', c)) →
      c.status = cons.status ∧
      s'.consultations = s.consultations.map (fun x => if x.id == cons.id then c else x)) := by
  constructor
  · intro st s' c h
    have h2 := update_ok_applyUpdate hc h
    have hs : s' = (applyUpdate s cons none (some st)).1 := congrArg Prod.fst h2
    have hcc : c = (applyUpdate s cons none (some st)).2 := congrArg Prod.snd h2
    refine ⟨?_, ?_, ?_⟩
    · rw [hcc]
      rfl
    · rw [hcc]
      rfl
    · rw [hs, hcc]
      rfl
  · intro n s' c h
    have h2 := update_ok_applyUpdate hc h
    have hs : s' = (applyUpdate s cons (some n) none).1 := congrArg Prod.fst h2
    have hcc : c = (applyUpdate s cons (some n) none).2 := congrArg Prod.snd h2
    refine ⟨?_, ?_⟩
    · rw [hcc]
      simp only [applyUpdate]
      split
      · rfl
      · rfl
    · rw [hs, hcc]
      rfl

def c5sales : User := ⟨1, "Sam", "sam@x.com", "pw", "sales"⟩

def c5cons : Consultation :=
  ⟨1, 1, "https://meet.jit.si/Prakvedaa-y", none, "sam@x.com", "pending", some "old"⟩

def c5store : Store :=
  ⟨[c5sales], [⟨1, "P", none, none, none, "sam@x.com", none⟩], [c5cons], 2, 2, 2⟩

def c5afterStatus : Consultation := { c5cons with status := "completed" }

def c5afterNotes : Consultation := { c5cons with doctor_notes := some "new note" }

def c5storeAfterStatus : Store := { c5store with consultations := [c5afterStatus] }

def c5storeAfterNotes : Store := { c5store with consultations := [c5afterNotes] }

/-- Witness for C5: on a concrete consultation, a status-only update keeps
the stored doctor notes and a notes-only update keeps the stored status. -/
theorem c5_witness :
    (c5afterStatus.doctor_notes = c5cons.doctor_notes ∧
      c5afterStatus.status = pyLower "Completed" ∧
      c5storeAfterStatus.consultations =
        c5store.consultations.map (fun x => if x.id == c5cons.id then c5afterStatus else x)) ∧
    (c5afterNotes.status = c5cons.status ∧
      c5storeAfterNotes.consultations =
        c5store.consultations.map (fun x => if x.id == c5cons.id then c5afterNotes else x)) :=
  ⟨(c5_partial_update_frame c5store c5sales 1 c5cons rfl).1 "Completed"
      c5storeAfterStatus c5afterStatus rfl,
   (c5_partial_update_frame c5store c5sales 1 c5cons rfl).2 "new note"
      c5storeAfterNotes c5afterNotes rfl⟩

/-- C7: phone resolution of the whatsapp-link handler for a permitted caller
on an existing consultation and patient: a truthy override wins; otherwise
the patient contact with plus and space characters removed is used; when
neither yields a non-empty phone the handler fails with the 400 validation
error and produces no link. -/
theorem c7_whatsapp_phone_resolution (s : Store) (u : User)
    (payload : ConsultationShareRequest) (cons : Consultation) (patient : Patient)
    (hc : findConsultation s payload.consultation_id = some cons)
    (hp : findPatient s cons.patient_id = some patient)
    (hperm : (u.role == "doctor" && patient.assigned_doctor_email != some u.email) = false) :
    (∀ p, payload.phone_e164 = some p → p.isEmpty = false →
      whatsapp_link s u payload = Except.ok ("https://wa.me/" ++ p ++ "?text=" ++
        quote_plus ("Hello " ++ patient.name ++ ", your video consultation is scheduled.\n" ++
          "Link: " ++ cons.video_url ++ "\n" ++ "Doctor: " ++ docStr patient ++ "\n" ++
          "Time: " ++ whenStr cons))) ∧
    (truthy payload.phone_e164 = false → ∀ ct, patient.contact = some ct → ct.isEmpty = false →
      (removeChar ' ' (removeChar '+' ct)).isEmpty = false →
      whatsapp_link s u payload = Except.ok ("https://wa.me/" ++
        removeChar ' ' (removeChar '+' ct) ++ "?text=" ++
        quote_plus ("Hello " ++ patient.name ++ ", your video consultation is scheduled.\n" ++
          "Link: " ++ cons.video_url ++ "\n" ++ "Doctor: " ++ docStr patient ++ "\n" ++
          "Time: " ++ whenStr cons))) ∧
    (truthy payload.phone_e164 = false → truthy patient.contact = false →
      whatsapp_link s u payload =
        Except.error ⟨400, "No phone provided and patient.contact empty"⟩) ∧
    (truthy payload.phone_e164 = false → ∀ ct, patient.contact = some ct → ct.isEmpty = false →
      (removeChar ' ' (removeChar '+' ct)).isEmpty = true →
      whatsapp_link s u payload =
        Except.error ⟨400, "No phone provided and patient.contact empty"⟩) := by
  refine ⟨?_, ?_, ?_, ?_⟩
  · intro p hpe hne
    simp [whatsapp_link, hc, hp, hperm, hpe, truthy_some, hne]
  · intro hov ct hct hcte hne
    simp [whatsapp_link, hc, hp, hperm, hov, hct, truthy_some, truthy_none, hcte, hne]
  · intro hov hctf
    simp [whatsapp_link, hc, hp, hperm, hov, hctf, truthy_none]
  · intro hov ct hct hcte hne
    simp [whatsapp_link, hc, hp, hperm, hov, hct, truthy_some, truthy_none, hcte, hne]

def c7sales : User := ⟨1, "Sam", "sam@x.com", "pw", "sales"⟩

def c7patient : Patient := ⟨1, "Pat", none, some "+91 98765 43210", none, "sam@x.com", none⟩

def c7cons : Consultation :=
  ⟨1, 1, "https://meet.jit.si/Prakvedaa-z", none, "sam@x.com", "pending", none⟩

def c7store : Store := ⟨[c7sales], [c7patient], [c7cons], 2, 2, 2⟩

def c7patientEmpty : Patient := { c7patient with contact := some "" }

def c7storeEmpty : Store := { c7store with patients := [c7patientEmpty] }

/-- Witness for C7: contact +91 98765 43210 with no override yields the
destination phone 919876543210 in the link, and an empty contact with no
override fails with the 400 validation error. -/
theorem c7_witness :
    whatsapp_link c7store c7sales ⟨1, none⟩ =
      Except.ok ("https://wa.me/919876543210?text=" ++
        quote_plus ("Hello Pat, your video consultation is scheduled.\n" ++
          "Link: https://meet.jit.si/Prakvedaa-z\n" ++ "Doctor: TBD\n" ++ "Time: Now")) ∧
    whatsapp_link c7storeEmpty c7sales ⟨1, none⟩ =
      Except.error ⟨400, "No phone provided and patient.contact empty"⟩ :=
  ⟨(c7_whatsapp_phone_resolution c7store c7sales ⟨1, none⟩ c7cons c7patient
      rfl rfl rfl).2.1 rfl "+91 98765 43210" rfl rfl rfl,
   (c7_whatsapp_phone_resolution c7storeEmpty c7sales ⟨1, none⟩ c7cons c7patientEmpty
      rfl rfl rfl).2.2.1 rfl rfl⟩

/-- C10: listing users never checks the role of the caller: any
authenticated caller succeeds, receives every registered user, filtered to
one role only when the role query parameter is truthy, sorted by
descending id. -/
theorem c10_list_users_no_role_gate (s : Store) (u : User) (role : Option String) :
    ∃ l, list_users s u role = Except.ok l ∧ SortedByIdDesc (fun x => x.id) l ∧
      (truthy role = false → List.Perm l s.users ∧ (∀ x, x ∈ l ↔ x ∈ s.users)) ∧
      (∀ r, role = some r → r.isEmpty = false →
        List.Perm l (s.users.filter (fun x => x.role == r)) ∧
        (∀ x, x ∈ l ↔ x ∈ s.users ∧ x.role = r)) := by
  refine ⟨orderByIdDesc (fun x => x.id)
      (if truthy role then s.users.filter (fun x => x.role == role.getD "") else s.users),
    rfl, sorted_orderByIdDesc _ _, ?_, ?_⟩
  · intro h
    simp only [h, Bool.false_eq_true, if_false]
    exact ⟨perm_orderByIdDesc _ _, fun x => mem_orderByIdDesc⟩
  · intro r hr hne
    subst hr
    simp only [Option.getD_some]
    rw [if_pos (show truthy (some r) = true by simp [truthy_some, hne])]
    refine ⟨perm_orderByIdDesc _ _, ?_⟩
    intro x
    rw [mem_orderByIdDesc, List.mem_filter]
    simp

def c10admin : User := ⟨1, "Eve", "admin@x.com", "pw", "admin"⟩

def c10store : Store := ⟨[c10admin, ⟨2, "Dora", "dora@x.com", "pw", "doctor"⟩], [], [], 3, 1, 1⟩

/-- Witness for C10: an admin caller is not denied: listing users succeeds
with and without a role filter. -/
theorem c10_witness :
    isOkE (list_users c10store c10admin none) = true ∧
    isOkE (list_users c10store c10admin (some "doctor")) = true := by
  constructor
  · obtain ⟨l, hl, -⟩ := c10_list_users_no_role_gate c10store c10admin none
    rw [hl]
    rfl
  · obtain ⟨l, hl, -⟩ := c10_list_users_no_role_gate c10store c10admin (some "doctor")
    rw [hl]
    rfl

end PrakvedaaCRM
